import Mathlib

/-!
Shallow embedding of the SpliceBlocks code generator (the Splice backend of a
block-based visual editor) and proofs about its emitters.

Sources embedded:
* `src/SpliceBlocks/generators/splice/splice_generator.ts` — the `Order`
  precedence table, `ORDER_OVERRIDES`, `init`, `finish`, `getAdjusted`;
* `src/SpliceBlocks/generators/splice/text.ts` — text and list emitters
  (`text_trim`, `text_indexOf`, `lists_indexOf`, `lists_getIndex`,
  `lists_setIndex`);
* `src/SpliceBlocks/generators/splice/loops.ts` — logic emitters
  (`logic_compare`, `logic_operation`);
* `src/unnamed/part_000` (math emitters: `math_arithmetic`, `math_single`);
* `src/SpliceBlocks/generators/splice/variables_dynamic.ts` (procedure
  emitters: `procedures_defreturn`, `procedures_defnoreturn`).

Modelling conventions, used throughout:
* `generator.valueToCode(block, SLOT, order)` returns the already-rendered code
  of the block plugged into SLOT, or the empty string when the slot is
  unconnected.  Each emitter embedded here therefore takes those rendered
  strings as parameters; the empty string stands for an unconnected slot, and
  the JS falsiness test `!argument` on such a string is modelled as `= ""`.
* Field values (`block.getFieldValue(...)`) are taken as `String` parameters.
* A thrown `Error` is modelled with `Except String`; emitters whose source
  cannot throw are total functions.
* JS object lookup that can miss (`OPERATORS[op]`) is modelled with `Option`;
  the JS coercion of `undefined` during string concatenation is made explicit
  by `jsStr`.
-/

namespace Splice

/-- `Order` from splice_generator.ts: precedence levels are plain numbers in
the source (with fractional values 2.1 and 2.2), so the embedding uses `Rat`. -/
abbrev Order := Rat

namespace Order

def ATOMIC : Order := 0
def COLLECTION : Order := 1
def STRING_CONVERSION : Order := 1
/-- 2.1 in the source (written as the reduced fraction 21/10 so that kernel
reduction, hence `decide`, works on comparisons). -/
def MEMBER : Order := ⟨21, 10, by decide, by decide⟩
/-- 2.2 in the source (the reduced fraction 11/5). -/
def FUNCTION_CALL : Order := ⟨11, 5, by decide, by decide⟩
def EXPONENTIATION : Order := 3
def UNARY_SIGN : Order := 4
def BITWISE_NOT : Order := 4
def MULTIPLICATIVE : Order := 5
def DIVISION : Order := 5
def ADDITIVE : Order := 6
def BITWISE_SHIFT : Order := 7
def BITWISE_AND : Order := 8
def BITWISE_XOR : Order := 9
def BITWISE_OR : Order := 10
def RELATIONAL : Order := 11
def EQUALITY : Order := 12
def LOGICAL_NOT : Order := 13
def LOGICAL_AND : Order := 14
def LOGICAL_OR : Order := 15
def CONDITIONAL : Order := 16
def ASSIGNMENT : Order := 17
def NONE : Order := 99

end Order

/-- `SpliceGenerator.ORDER_OVERRIDES`: outer/inner pairings that do NOT require
parentheses (splice_generator.ts lines 57-79). -/
def ORDER_OVERRIDES : List (Order × Order) := [
  (Order.FUNCTION_CALL, Order.MEMBER),
  (Order.FUNCTION_CALL, Order.FUNCTION_CALL),
  (Order.MEMBER, Order.MEMBER),
  (Order.MEMBER, Order.FUNCTION_CALL),
  (Order.LOGICAL_NOT, Order.LOGICAL_NOT),
  (Order.LOGICAL_AND, Order.LOGICAL_AND),
  (Order.LOGICAL_OR, Order.LOGICAL_OR)]

/-- Modelled from the spec: the parenthesization decision of the Generator
Core's `valueToCode` (in `core/generator.ts`, which is not among the sources;
only its caller `SpliceGenerator` and the `ORDER_OVERRIDES` table it consults
are).  Spec 4.1: "Contract: given a required context order and a child's
actual order, decide wrap := not (child_order <= context_order OR
(context_order, child_order) is a known no-wrap pair)." -/
def decideWrap (contextOrder childOrder : Order) : Bool :=
  !(decide (childOrder ≤ contextOrder) ||
    ORDER_OVERRIDES.any (fun p => decide (p.1 = contextOrder) && decide (p.2 = childOrder)))

/-! ## Generator state: Definitions Table, Name Database, `init`, `finish` -/

/-- The JS `undefined`-aware string coercion: concatenating a missed object
lookup (`OPERATORS[op]` yielding `undefined`) into a string produces the text
`undefined`. -/
def jsStr : Option String → String
  | some s => s
  | none => "undefined"

/-- The workspace inputs that `SpliceGenerator.init` consumes, abstracted from
the external editor framework: the declared variables (the workspace variable
map), the *used* variables in the order the usage scan
(`Variables.allUsedVarModels`) reports them, and the procedures.  Names stand
for their already-legalized target-language names (`getVariableName` is
modelled as the identity on these). -/
structure Workspace where
  declaredVariables : List String
  usedVariables : List String
  procedures : List String

/-- The state of the Name Database after `reset`/`populateVariables`/
`populateProcedures`, abstracted to the two populated name lists. -/
structure NamesDB where
  variableNames : List String
  procedureNames : List String

/-- The `SpliceGenerator` fields the claims touch: the Definitions Table
`definitions_` (a JS object with string keys, i.e. an insertion-ordered map —
modelled as an association list), the Name Database `nameDB_`, and the
`isInitialized` flag. -/
structure SpliceState where
  definitions_ : List (String × String)
  nameDB_ : Option NamesDB
  isInitialized : Bool

/-- Assignment `obj[k] = v` on a JS object with string keys: an existing key
keeps its position and is overwritten; a new key is appended (JS property
insertion order). -/
def setKey (defs : List (String × String)) (k v : String) : List (String × String) :=
  if defs.any (fun p => decide (p.1 = k)) then
    defs.map (fun p => if p.1 = k then (k, v) else p)
  else
    defs ++ [(k, v)]

/-- Lookup `obj[k]` on the modelled JS object. -/
def getKey (defs : List (String × String)) (k : String) : Option String :=
  (defs.find? (fun p => decide (p.1 = k))).map Prod.snd

/-- `SpliceGenerator.init` (splice_generator.ts lines 104-128).  `super.init`
is core code not among the sources; modelled from the spec ("resets Name
Database and Helper Registry"): it empties the Definitions Table / Helper
Registry.  `nameDB_.reset()` + `populateVariables` + `populateProcedures`
rebuild the Name Database from the workspace; the defvars loop then stores one
`let <name> = "";` line per *used* variable (in scan order, joined by `\n`)
under the key `variables`, and finally `isInitialized` is set. -/
def init (workspace : Workspace) (s : SpliceState) : SpliceState :=
  let nameDB : NamesDB := ⟨workspace.declaredVariables, workspace.procedures⟩
  let defvars := workspace.usedVariables.map (fun v => "let " ++ v ++ " = \"\";")
  { s with
    definitions_ := setKey [] "variables" (String.intercalate "\n" defvars),
    nameDB_ := some nameDB,
    isInitialized := true }

/-- `SpliceGenerator.finish` (splice_generator.ts lines 135-145): captures
`Object.values(this.definitions_)` (insertion order), calls `super.finish`
(which returns the code unchanged), clears `isInitialized`, and returns the
definitions joined by `\n\n`, then `\n\n`, then the main code. -/
def finish (code : String) (s : SpliceState) : String × SpliceState :=
  let definitions := s.definitions_.map Prod.snd
  (String.intercalate "\n\n" definitions ++ "\n\n" ++ code,
   { s with isInitialized := false })

/-- `SpliceGenerator.getAdjusted` (splice_generator.ts lines 240-268).
`atCode` is the result of `this.valueToCode(block, atId, order)` ("" when the
AT slot is unconnected).  JS detail kept: `opt_order || Order.NONE` coerces
both an absent order and a falsy order `0` (ATOMIC) to NONE, while the final
wrap test checks `opt_order !== undefined` on the original argument; the
delta appended with `+`/`-` is a JS number rendered in decimal. -/
def getAdjusted (oneBasedIndex : Bool) (atCode : String)
    (opt_delta : Option Int) (opt_negate : Bool) (opt_order : Option Order) : String :=
  let delta : Int := match opt_delta with | some d => d | none => 0
  let order : Order := match opt_order with | some o => if o = 0 then Order.NONE else o | none => Order.NONE
  let delta : Int := if oneBasedIndex then delta - 1 else delta
  let defaultValue := atCode
  if defaultValue ≠ "" then
    let defaultValue := if opt_negate then "!" ++ defaultValue else defaultValue
    let defaultValue :=
      if delta > 0 then defaultValue ++ " + " ++ toString delta
      else if delta < 0 then defaultValue ++ " - " ++ toString (-delta)
      else defaultValue
    if opt_order.isSome ∧ order ≥ Order.ADDITIVE then "(" ++ defaultValue ++ ")"
    else defaultValue
  else defaultValue

/-! ## Text emitters (text.ts) -/

/-- The `OPERATORS` table of `text_trim` (text.ts lines 155-159); lookup of an
unrecognized MODE yields JS `undefined`, hence `Option`. -/
def trimOPERATORS : String → Option String
  | "LEFT" => some ".trimStart()"
  | "RIGHT" => some ".trimEnd()"
  | "BOTH" => some ".trim()"
  | _ => none

/-- `text_trim` (text.ts lines 153-164): `mode` is the MODE field, `textCode`
the rendered TEXT input ("" when unconnected, defaulted to `'""'`).  The
source contains no throw: on an unknown MODE the `undefined` lookup is
concatenated into the returned code. -/
def text_trim (mode textCode : String) : String × Order :=
  let operator := trimOPERATORS mode
  let text := if textCode = "" then "\"\"" else textCode
  (text ++ jsStr operator, Order.FUNCTION_CALL)

/-- `text_indexOf` (text.ts lines 60-70). -/
def text_indexOf (oneBasedIndex : Bool) (endField findCode valueCode : String) :
    String × Order :=
  let operator := if endField = "FIRST" then "indexOf" else "lastIndexOf"
  let substring := if findCode = "" then "\"\"" else findCode
  let text := if valueCode = "" then "\"\"" else valueCode
  let code := text ++ "." ++ operator ++ "(" ++ substring ++ ")"
  if oneBasedIndex then (code ++ " + 1", Order.ADDITIVE)
  else (code, Order.FUNCTION_CALL)

/-! ## List emitters (the lists section of text.ts) -/

/-- `lists_indexOf` (lists section, lines 293-331).  `provideFunction_` returns
the allocated helper name, modelled as the helper's key ('lists_indexOf' /
'lists_lastIndexOf') since no collision arises in a fresh pass. -/
def lists_indexOf (oneBasedIndex : Bool) (endField findCode valueCode : String) :
    String × Order :=
  let functionName := if endField = "FIRST" then "lists_indexOf" else "lists_lastIndexOf"
  let item := if findCode = "" then "null" else findCode
  let list := if valueCode = "" then "[]" else valueCode
  let code := functionName ++ "(" ++ list ++ ", " ++ item ++ ")"
  let code := if oneBasedIndex then code ++ " + 1" else code
  (code, Order.FUNCTION_CALL)

/-- `lists_getIndex` (lists section, lines 333-339): VALUE defaults to `[]`,
the index comes from `getAdjusted(block, 'AT')` (no delta, no negate, no
order). -/
def lists_getIndex (oneBasedIndex : Bool) (valueCode atCode : String) : String × Order :=
  let list := if valueCode = "" then "[]" else valueCode
  let at_ := getAdjusted oneBasedIndex atCode none false none
  (list ++ "[" ++ at_ ++ "]", Order.MEMBER)

/-- `lists_setIndex` (lists section, lines 341-347). -/
def lists_setIndex (oneBasedIndex : Bool) (listCode atCode toCode : String) : String :=
  let list := if listCode = "" then "[]" else listCode
  let at_ := getAdjusted oneBasedIndex atCode none false none
  let value := if toCode = "" then "null" else toCode
  list ++ "[" ++ at_ ++ "] = " ++ value ++ ";\n"

/-! ## Logic emitters (the logic section of loops.ts) -/

/-- The `OPERATORS` table of `logic_compare` (lines 171-178). -/
def compareOPERATORS : String → Option String
  | "EQ" => some "=="
  | "NEQ" => some "!="
  | "LT" => some "<"
  | "LTE" => some "<="
  | "GT" => some ">"
  | "GTE" => some ">="
  | _ => none

/-- `logic_compare` (lines 169-186): both operands default to `'0'`; an
unknown OP is NOT a throw — the `undefined` lookup is concatenated into the
returned code. -/
def logic_compare (op a b : String) : String × Order :=
  let operator := compareOPERATORS op
  let argument0 := if a = "" then "0" else a
  let argument1 := if b = "" then "0" else b
  (argument0 ++ " " ++ jsStr operator ++ " " ++ argument1, Order.RELATIONAL)

/-- `logic_operation` (lines 188-210): AND/OR with the documented
missing-operand policy — both missing: both become `'false'`; a single
missing operand becomes the identity literal (`'true'` for `&&`, `'false'`
for `||`). -/
def logic_operation (op a b : String) : String × Order :=
  let operator := if op = "AND" then "&&" else "||"
  let order := if operator = "&&" then Order.LOGICAL_AND else Order.LOGICAL_OR
  let args :=
    if a = "" ∧ b = "" then ("false", "false")
    else
      let defaultArgument := if operator = "&&" then "true" else "false"
      (if a = "" then defaultArgument else a, if b = "" then defaultArgument else b)
  (args.1 ++ " " ++ operator ++ " " ++ args.2, order)

/-! ## Math emitters (src/unnamed/part_000) -/

/-- The `OPERATORS` table of `math_arithmetic` (lines 25-31). -/
def arithOPERATORS : String → Option (String × Order)
  | "ADD" => some (" + ", Order.ADDITIVE)
  | "MINUS" => some (" - ", Order.ADDITIVE)
  | "MULTIPLY" => some (" * ", Order.MULTIPLICATIVE)
  | "DIVIDE" => some (" / ", Order.MULTIPLICATIVE)
  | "POWER" => some (" ** ", Order.EXPONENTIATION)
  | _ => none

/-- `math_arithmetic` (lines 23-40): operands default to `'0'`.  On an
unknown OP the source reads `tuple[0]` with `tuple === undefined`, which
aborts generation with a TypeError; modelled as the error case. -/
def math_arithmetic (op a b : String) : Except String (String × Order) :=
  match arithOPERATORS op with
  | none => Except.error "TypeError: tuple is undefined"
  | some (operator, order) =>
    let argument0 := if a = "" then "0" else a
    let argument1 := if b = "" then "0" else b
    Except.ok (argument0 ++ operator ++ argument1, order)

/-- `math_single` (lines 42-83): `numCode` is the rendered NUM input ("" when
unconnected, defaulted to `'0'` in every branch).  NEG wraps an operand whose
rendered text begins with `-` as `' (' + arg + ')'` before prefixing `-`; an
unknown OP throws `Unknown math operator`. -/
def math_single (op numCode : String) : Except String (String × Order) :=
  if op = "NEG" then
    let arg := if numCode = "" then "0" else numCode
    let arg := if arg.data.head? = some '-' then " (" ++ arg ++ ")" else arg
    Except.ok ("-" ++ arg, Order.UNARY_SIGN)
  else if op = "SIN" ∨ op = "COS" ∨ op = "TAN" then
    let arg := if numCode = "" then "0" else numCode
    Except.ok ("math." ++ op.toLower ++ "(" ++ arg ++ ")", Order.FUNCTION_CALL)
  else if op = "ROOT" then
    let arg := if numCode = "" then "0" else numCode
    Except.ok ("math.sqrt(" ++ arg ++ ")", Order.FUNCTION_CALL)
  else if op = "LN" then
    let arg := if numCode = "" then "0" else numCode
    Except.ok ("math.log(" ++ arg ++ ")", Order.FUNCTION_CALL)
  else if op = "LOG10" then
    let arg := if numCode = "" then "0" else numCode
    Except.ok ("math.log10(" ++ arg ++ ")", Order.FUNCTION_CALL)
  else if op = "ABS" then
    let arg := if numCode = "" then "0" else numCode
    Except.ok ("math.abs(" ++ arg ++ ")", Order.FUNCTION_CALL)
  else if op = "EXP" then
    let arg := if numCode = "" then "0" else numCode
    Except.ok ("math.exp(" ++ arg ++ ")", Order.FUNCTION_CALL)
  else if op = "POW10" then
    let arg := if numCode = "" then "0" else numCode
    Except.ok ("math.pow(10, " ++ arg ++ ")", Order.FUNCTION_CALL)
  else
    Except.error ("Unknown math operator: " ++ op)

/-! ## Procedure emitters (the procedures section of variables_dynamic.ts) -/

/-- `procedures_defreturn` (lines 44-83): `branch` is the rendered STACK
statements ("" when empty), `returnValue` the rendered RETURN input ("" when
unconnected), `args` the legalized parameter names.  The instrumentation
hooks STATEMENT_PREFIX / STATEMENT_SUFFIX are unset (generator defaults), so
`xfix1` is empty and `scrub_` (no comment, no next block) returns the code
unchanged.  The rendered definition is stored under the `%`-prefixed key and
the emitter returns `null` (no code to the body stream), modelled by the
`none` component. -/
def procedures_defreturn (funcName branch returnValue : String) (args : List String)
    (defs : List (String × String)) : List (String × String) × Option String :=
  let xfix2 :=
    if branch ≠ "" ∧ returnValue ≠ "" then "return " ++ returnValue ++ ";\n"
    else if returnValue ≠ "" then "return " ++ returnValue ++ ";\n"
    else if branch ≠ "" then "return;\n"
    else "return;\n"
  let code := "func " ++ funcName ++ "(" ++ String.intercalate ", " args ++ ") \x7b\n" ++
    branch ++ xfix2 ++ "\x7d"
  (setKey defs ("%" ++ funcName) code, none)

/-- `procedures_defnoreturn` (lines 85-109): same modelling as
`procedures_defreturn`; note the source appends no synthesized return — the
body is the STACK code alone (followed by the empty `xfix1`). -/
def procedures_defnoreturn (funcName branch : String) (args : List String)
    (defs : List (String × String)) : List (String × String) × Option String :=
  let code := "func " ++ funcName ++ "(" ++ String.intercalate ", " args ++ ") \x7b\n" ++
    branch ++ "\x7d\n"
  (setKey defs ("%" ++ funcName) code, none)

/-! ## Substring occurrence, used to state "the emitted text contains ..." -/

/-- `leadsWith pat l` holds when `pat` is an initial segment of `l`. -/
def leadsWith : List Char → List Char → Bool
  | [], _ => true
  | _ :: _, [] => false
  | p :: ps, c :: cs => if p = c then leadsWith ps cs else false

/-- `subOcc pat l` holds when `pat` occurs contiguously inside `l`. -/
def subOcc (pat : List Char) : List Char → Bool
  | [] => pat.isEmpty
  | c :: cs => leadsWith pat (c :: cs) || subOcc pat cs

/-- The two-character pattern `--` whose absence the negation emitter must
guarantee. -/
def ddash : List Char := ['-', '-']

/-- Whether a character list starts with `-` (the JS test `arg[0] === '-'`). -/
def headIsDash : List Char → Bool
  | [] => false
  | c :: _ => if c = '-' then true else false

theorem headIsDash_eq_false {l : List Char} (h : l.head? ≠ some '-') :
    headIsDash l = false := by
  cases l with
  | nil => rfl
  | cons c cs =>
    have hc : c ≠ '-' := fun hc => h (by simp [hc])
    simp [headIsDash, hc]

theorem subOcc_ddash_cons (c : Char) (l : List Char) :
    subOcc ddash (c :: l) =
      ((if c = '-' then headIsDash l else false) || subOcc ddash l) := by
  by_cases hc : c = '-'
  · subst hc
    cases l with
    | nil => simp [subOcc, leadsWith, ddash, headIsDash]
    | cons d ds =>
      by_cases hd : d = '-'
      · subst hd; simp [subOcc, leadsWith, ddash, headIsDash]
      · have hd' : ¬('-' = d) := fun h => hd h.symm
        simp [subOcc, leadsWith, ddash, headIsDash, hd, hd']
  · have hc' : ¬('-' = c) := fun h => hc h.symm
    cases l with
    | nil => simp [subOcc, leadsWith, ddash, headIsDash, hc, hc']
    | cons d ds => simp [subOcc, leadsWith, ddash, headIsDash, hc, hc']

theorem subOcc_ddash_cons_ne {c : Char} (hc : c ≠ '-') (l : List Char) :
    subOcc ddash (c :: l) = subOcc ddash l := by
  rw [subOcc_ddash_cons]
  simp [hc]

theorem subOcc_ddash_cons_dash {l : List Char} (h : headIsDash l = false) :
    subOcc ddash ('-' :: l) = subOcc ddash l := by
  rw [subOcc_ddash_cons]
  simp [h]

theorem subOcc_ddash_append_ne {x : Char} (hx : x ≠ '-') :
    ∀ l : List Char, subOcc ddash (l ++ [x]) = subOcc ddash l := by
  intro l
  induction l with
  | nil =>
    simpa [subOcc] using subOcc_ddash_cons_ne hx []
  | cons c cs ih =>
    rw [List.cons_append, subOcc_ddash_cons, subOcc_ddash_cons, ih]
    cases cs with
    | nil => simp [headIsDash, hx]
    | cons d ds => rfl

/-! ## Claim theorems -/

/-- C3 counterexample: the claim asserts that an additive child in an additive
context (`a - (b - c)`) is wrapped, but under the claim's own wrap formula
`wrap := not (child_order <= context_order OR pair listed)` the decision at
(ADDITIVE, ADDITIVE) is NOT to wrap, since `ADDITIVE <= ADDITIVE`. -/
theorem C3_counterexample : decideWrap Order.ADDITIVE Order.ADDITIVE = false := by decide

/-- C3 (amended): the wrap decision is
`wrap := not (child_order <= context_order OR (context, child) is listed)`;
the no-wrap override table contains exactly the seven listed pairs; a
function-call child in a function-call context is never wrapped; and an
additive child in an additive context is likewise NOT wrapped (its order is
already `<=` the context's). -/
theorem C3_amended :
    (∀ ctx child : Order, decideWrap ctx child =
      !(decide (child ≤ ctx) ||
        ORDER_OVERRIDES.any (fun p => decide (p.1 = ctx) && decide (p.2 = child)))) ∧
    (∀ p : Order × Order, p ∈ ORDER_OVERRIDES ↔
      (p = (Order.FUNCTION_CALL, Order.MEMBER) ∨
       p = (Order.FUNCTION_CALL, Order.FUNCTION_CALL) ∨
       p = (Order.MEMBER, Order.MEMBER) ∨
       p = (Order.MEMBER, Order.FUNCTION_CALL) ∨
       p = (Order.LOGICAL_NOT, Order.LOGICAL_NOT) ∨
       p = (Order.LOGICAL_AND, Order.LOGICAL_AND) ∨
       p = (Order.LOGICAL_OR, Order.LOGICAL_OR))) ∧
    decideWrap Order.FUNCTION_CALL Order.FUNCTION_CALL = false ∧
    decideWrap Order.ADDITIVE Order.ADDITIVE = false := by
  refine ⟨fun ctx child => rfl, fun p => ?_, by decide, by decide⟩
  simp [ORDER_OVERRIDES]

/-- C2: evaluation of `getAdjusted` at the failing inputs.  In a one-based
workspace a connected index `x` in from-end mode (delta 1, negate) renders as
`!x` — the logical-not token, not an arithmetic negation; a connected literal
index `1` renders as `1 - 1`, not `0`; and with a supplied order the result
is wrapped whenever that order is ≥ ADDITIVE, even when nothing was combined
with the value (`(x)`). -/
theorem C2_code :
    getAdjusted true "x" (some 1) true none = "!x" ∧
    getAdjusted true "1" none false none = "1 - 1" ∧
    getAdjusted false "x" none false (some Order.NONE) = "(x)" := by
  refine ⟨by decide, by decide, by decide⟩

/-- C9: with the AT slot unconnected, `getAdjusted` returns the empty string
without applying the delta, the negation, or any default literal, for every
workspace mode and option combination; consequently `lists_getIndex` and
`lists_setIndex` emit an indexing expression with an empty index (`[][]`). -/
theorem C9_unconnected :
    (∀ (ob : Bool) (od : Option Int) (ng : Bool) (oo : Option Order),
      getAdjusted ob "" od ng oo = "") ∧
    (∀ (ob : Bool) (vc : String),
      (lists_getIndex ob vc "").1 = (if vc = "" then "[]" else vc) ++ "[" ++ "" ++ "]") ∧
    (∀ ob : Bool, lists_getIndex ob "" "" = ("[][]", Order.MEMBER)) ∧
    (∀ ob : Bool, lists_setIndex ob "" "" "" = "[][] = null;\n") := by
  refine ⟨fun ob od ng oo => rfl, fun ob vc => rfl, fun ob => by cases ob <;> decide,
    fun ob => by cases ob <;> decide⟩

/-- C10: in a one-based workspace both indexOf emitters return code of the
additive shape `<call> + 1`, but `lists_indexOf` reports it at FUNCTION_CALL
precedence while `text_indexOf` reports ADDITIVE — two different precedence
levels for the same expression shape. -/
theorem C10_indexOf_orders (findCode valueCode : String) :
    ∃ c₁ c₂ : String,
      lists_indexOf true "FIRST" findCode valueCode = (c₁ ++ " + 1", Order.FUNCTION_CALL) ∧
      text_indexOf true "FIRST" findCode valueCode = (c₂ ++ " + 1", Order.ADDITIVE) ∧
      Order.FUNCTION_CALL ≠ Order.ADDITIVE := by
  refine ⟨_, _, rfl, rfl, by decide⟩

/-- C7: `finish` returns the Definitions Table entries in insertion order,
joined pairwise by one blank line, followed by one blank line and the main
statement code, and leaves the generator with `isInitialized = false`. -/
theorem C7_finish (code : String) (s : SpliceState) :
    (finish code s).1 = String.intercalate "\n\n" (s.definitions_.map Prod.snd) ++ "\n\n" ++ code ∧
    (finish code s).2 = { s with isInitialized := false } ∧
    (finish "main;\n" ⟨[("variables", "let x = \"\";"), ("%f", "func f() \x7b\nreturn;\n\x7d")],
      none, true⟩).1 =
      "let x = \"\";\n\nfunc f() \x7b\nreturn;\n\x7d\n\nmain;\n" := by
  refine ⟨rfl, rfl, by decide⟩

/-- C1 counterexample: the claim asserts `text_trim` on an unknown MODE and
`logic_compare` on an unknown OP signal an unrecoverable error and never
return code text; in fact both return code, with the JS `undefined` lookup
concatenated into it. -/
theorem C1_counterexample :
    text_trim "EVERYWHERE" "" = ("\"\"undefined", Order.FUNCTION_CALL) ∧
    logic_compare "XOR" "" "" = ("0 undefined 0", Order.RELATIONAL) := by
  exact ⟨by decide, by decide⟩

/-- C1 (amended): `math_single` on an unknown OP does throw
(`Unknown math operator`); but `text_trim` on an unknown MODE and
`logic_compare` on an unknown OP do not throw — each returns code text with
the text `undefined` spliced in where the operator lookup missed. -/
theorem C1_amended (mode op mop t a b num : String)
    (hm : trimOPERATORS mode = none) (hc : compareOPERATORS op = none)
    (h1 : mop ≠ "NEG") (h2 : mop ≠ "SIN") (h3 : mop ≠ "COS") (h4 : mop ≠ "TAN")
    (h5 : mop ≠ "ROOT") (h6 : mop ≠ "LN") (h7 : mop ≠ "LOG10") (h8 : mop ≠ "ABS")
    (h9 : mop ≠ "EXP") (h10 : mop ≠ "POW10") :
    math_single mop num = Except.error ("Unknown math operator: " ++ mop) ∧
    text_trim mode t = ((if t = "" then "\"\"" else t) ++ "undefined", Order.FUNCTION_CALL) ∧
    logic_compare op a b =
      ((if a = "" then "0" else a) ++ " " ++ "undefined" ++ " " ++ (if b = "" then "0" else b),
       Order.RELATIONAL) := by
  refine ⟨?_, ?_, ?_⟩
  · simp [math_single, h1, h2, h3, h4, h5, h6, h7, h8, h9, h10]
  · simp [text_trim, jsStr, hm]
  · simp [logic_compare, jsStr, hc]

/-- C1 witness: the amended statement at concrete unknown options. -/
theorem C1_amended_witness :
    math_single "FOO" "" = Except.error "Unknown math operator: FOO" ∧
    text_trim "NOWHERE" "t" = ("tundefined", Order.FUNCTION_CALL) ∧
    logic_compare "XO" "a" "" = ("a undefined 0", Order.RELATIONAL) := by
  have h := C1_amended "NOWHERE" "XO" "FOO" "t" "a" "" ""
    rfl rfl (by decide) (by decide) (by decide) (by decide) (by decide)
    (by decide) (by decide) (by decide) (by decide) (by decide)
  exact ⟨h.1, h.2.1, h.2.2⟩

/-- C4 counterexample: the claim asserts that for AND every missing boolean
operand becomes `'true'` for every combination of connected/unconnected
slots; with BOTH operands unconnected the source instead emits
`false && false`. -/
theorem C4_counterexample :
    logic_operation "AND" "" "" = ("false && false", Order.LOGICAL_AND) ∧
    (logic_operation "AND" "" "").1 ≠ "true && true" := by
  exact ⟨by decide, by decide⟩

/-- C4 (amended): missing arithmetic operands default to `'0'` in every
combination; a missing boolean operand defaults to `'true'` for AND and
`'false'` for OR when at least one operand is connected; when both boolean
operands are missing, both become `'false'` regardless of the operator. -/
theorem C4_amended (a b : String) :
    (∀ op operator order, arithOPERATORS op = some (operator, order) →
      math_arithmetic op a b =
        Except.ok ((if a = "" then "0" else a) ++ operator ++ (if b = "" then "0" else b),
          order)) ∧
    (a ≠ "" ∨ b ≠ "" →
      logic_operation "AND" a b =
        ((if a = "" then "true" else a) ++ " " ++ "&&" ++ " " ++ (if b = "" then "true" else b),
         Order.LOGICAL_AND) ∧
      logic_operation "OR" a b =
        ((if a = "" then "false" else a) ++ " " ++ "||" ++ " " ++ (if b = "" then "false" else b),
         Order.LOGICAL_OR)) ∧
    (a = "" → b = "" →
      logic_operation "AND" a b = ("false && false", Order.LOGICAL_AND) ∧
      logic_operation "OR" a b = ("false || false", Order.LOGICAL_OR)) := by
  refine ⟨?_, ?_, ?_⟩
  · intro op operator order h
    simp [math_arithmetic, h]
  · intro h
    have hab : ¬(a = "" ∧ b = "") := by
      rcases h with h | h
      · exact fun hx => h hx.1
      · exact fun hx => h hx.2
    constructor <;> simp [logic_operation, hab]
  · intro ha hb
    subst ha; subst hb
    exact ⟨by decide, by decide⟩

/-- C4 witness: the amended statement at a concrete input with the first
operand unconnected. -/
theorem C4_amended_witness :
    math_arithmetic "ADD" "" "x" = Except.ok ("0 + x", Order.ADDITIVE) ∧
    logic_operation "AND" "" "x" = ("true && x", Order.LOGICAL_AND) := by
  have h1 := (C4_amended "" "x").1 "ADD" " + " Order.ADDITIVE rfl
  have h2 := ((C4_amended "" "x").2.1 (Or.inr (by decide))).1
  exact ⟨h1, h2⟩

/-- C5 counterexample: the claim asserts every procedure-definition block
appends an explicit synthesized return to the body; `procedures_defnoreturn`
with a non-empty stack emits a body that is the stack code alone — the
rendered definition contains no `return` at all (it is stored under the
`%`-prefixed key). -/
theorem C5_counterexample :
    procedures_defnoreturn "f" "  x = 1;\n" [] [] =
      ([("%f", "func f() \x7b\n  x = 1;\n\x7d\n")], none) ∧
    subOcc ("return").data ("func f() \x7b\n  x = 1;\n\x7d\n").data = false := by
  exact ⟨by decide, by decide⟩

/-- C5 (amended): `procedures_defreturn` emits the stack's statement code
followed by an explicit synthesized return — `return <value>;` when a return
value is present and `return;` otherwise, in all four combinations of
(non-empty stack) x (return value present) — and both procedure definers
store the rendered definition in the Definitions Table under the prefixed key
`%` + name, emitting nothing to the body stream (`none`);
`procedures_defnoreturn`, however, synthesizes no return: its body is the
stack code alone. -/
theorem C5_amended (funcName branch returnValue : String) (args : List String)
    (defs : List (String × String)) :
    procedures_defreturn funcName branch returnValue args defs =
      (setKey defs ("%" ++ funcName)
        ("func " ++ funcName ++ "(" ++ String.intercalate ", " args ++ ") \x7b\n" ++ branch ++
          (if returnValue = "" then "return;\n" else "return " ++ returnValue ++ ";\n") ++ "\x7d"),
       none) ∧
    procedures_defnoreturn funcName branch args defs =
      (setKey defs ("%" ++ funcName)
        ("func " ++ funcName ++ "(" ++ String.intercalate ", " args ++ ") \x7b\n" ++ branch ++
          "\x7d\n"),
       none) := by
  constructor
  · by_cases hb : branch = "" <;> by_cases hr : returnValue = "" <;>
      simp [procedures_defreturn, hb, hr]
  · rfl

/-- C6: `init` resets and repopulates the name database from the workspace,
stores under the Definitions Table key `variables` one `let <name> = "";`
line per *used* variable in scan order (declared-but-unused variables
contribute nothing: the entry depends only on the used-variable list), and
leaves `isInitialized = true`. -/
theorem C6_init (ws : Workspace) (s : SpliceState) :
    (init ws s).isInitialized = true ∧
    (init ws s).nameDB_ = some ⟨ws.declaredVariables, ws.procedures⟩ ∧
    getKey (init ws s).definitions_ "variables" =
      some (String.intercalate "\n" (ws.usedVariables.map (fun v => "let " ++ v ++ " = \"\";"))) ∧
    (∀ ws₂ : Workspace, ws₂.usedVariables = ws.usedVariables →
      getKey (init ws₂ s).definitions_ "variables" =
      getKey (init ws s).definitions_ "variables") := by
  have key : ∀ w : Workspace, getKey (init w s).definitions_ "variables" =
      some (String.intercalate "\n" (w.usedVariables.map (fun v => "let " ++ v ++ " = \"\";"))) :=
    fun w => rfl
  refine ⟨rfl, rfl, key ws, fun ws₂ h => ?_⟩
  rw [key ws₂, key ws, h]

/-- C6 witness: a workspace where `b` is declared but unused produces the
same `variables` entry as one without it. -/
theorem C6_init_witness :
    getKey (init ⟨["a"], ["a"], ["p"]⟩ ⟨[], none, false⟩).definitions_ "variables" =
    getKey (init ⟨["a", "b"], ["a"], []⟩ ⟨[], none, false⟩).definitions_ "variables" :=
  (C6_init ⟨["a", "b"], ["a"], []⟩ ⟨[], none, false⟩).2.2.2 ⟨["a"], ["a"], ["p"]⟩ rfl

/-- C8: for `math_single` with operator NEG, if the resolved operand's
rendered text begins with a minus sign it is wrapped in parentheses before the
prefix minus is attached, and — whenever the operand text itself is free of
`--` — the emitted expression never contains the adjacent token sequence
`--`; the result is returned at UNARY_SIGN precedence. -/
theorem C8_neg (s : String) (h : subOcc ddash s.data = false) :
    (∃ code : String, math_single "NEG" s = Except.ok (code, Order.UNARY_SIGN) ∧
      subOcc ddash code.data = false) ∧
    (s.data.head? = some '-' →
      math_single "NEG" s = Except.ok ("-" ++ (" (" ++ s ++ ")"), Order.UNARY_SIGN)) := by
  constructor
  · by_cases hs : s = ""
    · subst hs
      exact ⟨"-0", rfl, by decide⟩
    · by_cases hh : s.data.head? = some '-'
      · refine ⟨"-" ++ (" (" ++ s ++ ")"), by simp [math_single, hs, hh], ?_⟩
        have hdata : ("-" ++ (" (" ++ s ++ ")")).data = '-' :: ' ' :: '(' :: (s.data ++ [')']) := by
          simp [String.data_append]
        rw [hdata]
        rw [subOcc_ddash_cons_dash (by rfl)]
        rw [subOcc_ddash_cons_ne (by decide : (' ' : Char) ≠ '-')]
        rw [subOcc_ddash_cons_ne (by decide : ('(' : Char) ≠ '-')]
        rw [subOcc_ddash_append_ne (by decide : (')' : Char) ≠ '-')]
        exact h
      · refine ⟨"-" ++ s, by simp [math_single, hs, hh], ?_⟩
        have hdata : ("-" ++ s).data = '-' :: s.data := by
          simp [String.data_append]
        rw [hdata, subOcc_ddash_cons_dash (headIsDash_eq_false hh)]
        exact h
  · intro hh
    have hs : s ≠ "" := by
      intro he
      rw [he] at hh
      simp at hh
    simp [math_single, hs, hh]

/-- C8 witness: negating the already-negative operand `-3` emits `- (-3)`
(no `--`), at UNARY_SIGN precedence. -/
theorem C8_neg_witness :
    math_single "NEG" "-3" = Except.ok ("- (-3)", Order.UNARY_SIGN) ∧
    (∃ code : String, math_single "NEG" "-3" = Except.ok (code, Order.UNARY_SIGN) ∧
      subOcc ddash code.data = false) := by
  have h := C8_neg "-3" (by decide)
  exact ⟨h.2 (by decide), h.1⟩

end Splice
